import Mathlib

/-!
A verification development for the Bengaluru flood-predictor repository.

The repository's visible source is the React presentation layer
(`App.jsx`, `LeafletMapModal.jsx`, `MapModal.jsx`); the Flood Probability
Engine it talks to (reconciler, scoring model, batch evaluator, described
in the project documentation) is a separate backend whose code is not part
of the visible sources.  Frontend functions are embedded directly from the
JSX source; the backend engine is modelled from its specification, and
each such definition says so in its doc comment.

Numbers are embedded as exact rationals (`ℚ`) where the source performs
plain arithmetic and comparisons, and as reals (`ℝ`) for the logistic
scoring formula.  JavaScript's non-finite values (`NaN`, `Infinity`),
which matter for the unguarded divisions in `MapModal.jsx`, are embedded
by the explicit type `JVal`.
-/

namespace FloodPredictor

/-- Discrete risk tiers, as rendered by the frontend and produced by the
engine (`LOW` / `MODERATE` / `HIGH`). -/
inductive RiskLevel where
  | LOW
  | MODERATE
  | HIGH
deriving DecidableEq, Repr

/-- From `src/unnamed/part_001`, `fetchWardProbabilities` fallback
(lines 100-110): the only risk-tier mapping implemented in the visible
sources, `probability > 0.7 ? "HIGH" : probability > 0.4 ? "MODERATE" :
"LOW"`.  Note both comparisons are strict. -/
def fallbackRiskLevel (probability : ℚ) : RiskLevel :=
  if probability > 7/10 then .HIGH
  else if probability > 4/10 then .MODERATE
  else .LOW

/-- Modelled from the spec: the backend Flood Scoring Model is not in the
visible sources.  The logistic function `sigmoid(z) = 1 / (1 + exp(-z))`
used by the calibrated scoring model. -/
noncomputable def sigmoid (z : ℝ) : ℝ := 1 / (1 + Real.exp (-z))

/-- Modelled from the spec: the backend clamps the output probability to
`[0,1]` as a guard against numeric edge cases from extreme inputs. -/
def clamp01 (x : ℝ) : ℝ := min 1 (max 0 x)

/-- Modelled from the spec: the fixed, calibrated coefficients of the
logistic model, configuration constants of the backend (their concrete
values are not in the visible sources, so they are parameters here). -/
structure Coefficients where
  b0 : ℝ
  b1 : ℝ
  b2 : ℝ
  b3 : ℝ
  b4 : ℝ
  b5 : ℝ

/-- Modelled from the spec: the backend scoring model
`probability = sigmoid(b0 + b1*total_rain_24h + b2*max_hourly_rain +
b3*previous_day_rain + b4*vulnerability_score + b5*(1 - drainage_index))`,
clamped to `[0,1]`. -/
noncomputable def floodProbability (c : Coefficients)
    (total_rain_24h max_hourly_rain previous_day_rain
     vulnerability_score drainage_index : ℝ) : ℝ :=
  clamp01 (sigmoid (c.b0 + c.b1 * total_rain_24h + c.b2 * max_hourly_rain +
    c.b3 * previous_day_rain + c.b4 * vulnerability_score +
    c.b5 * (1 - drainage_index)))

/-- Weather providers feeding the engine: the reanalysis/historical
provider (Open-Meteo) and the commercial forecast provider
(OpenWeatherMap). -/
inductive Provider where
  | openMeteo
  | openWeatherMap
deriving DecidableEq, Repr

/-- Modelled from the spec: the typed failures of a weather provider
adapter (`ProviderUnavailable`, `DateOutOfRange`, `NoData`). -/
inductive AdapterFailure where
  | providerUnavailable
  | dateOutOfRange
  | noData
deriving DecidableEq, Repr

/-- Modelled from the spec: a provider's hourly rainfall for a ward and
date (with provenance tag), plus the prior date's hourly series when the
provider has it. -/
structure RainfallObservation where
  provider : Provider
  hourly : List ℚ
  hourlyPrev : Option (List ℚ)
deriving DecidableEq, Repr

/-- Daily rainfall total of an observation, `sum(hourly)`. -/
def dailyTotal (o : RainfallObservation) : ℚ := o.hourly.sum

/-- Peak hourly rainfall of an observation, `max(hourly)`. -/
def maxHourlyRain (o : RainfallObservation) : ℚ := o.hourly.foldr max 0

/-- Modelled from the spec: the reconciled rainfall profile derived from
the selected provider, with the degraded-mode marker and the
previous-day-fallback flag. -/
structure ReconciledRainfall where
  total_rain_24h : ℚ
  max_hourly_rain : ℚ
  previous_day_rain : ℚ
  previous_day_missing : Bool
  data_source : Provider
  degraded : Bool
deriving DecidableEq, Repr

/-- Modelled from the spec: building the reconciled profile wholly from
one selected provider's observation; `previous_day_rain` falls back to
`0` with a flag when the provider has no prior-date series. -/
def reconciledOf (o : RainfallObservation) (degraded : Bool) :
    ReconciledRainfall :=
  { total_rain_24h := dailyTotal o
    max_hourly_rain := maxHourlyRain o
    previous_day_rain := (o.hourlyPrev.map List.sum).getD 0
    previous_day_missing := o.hourlyPrev.isNone
    data_source := o.provider
    degraded := degraded }

/-- Modelled from the spec: the reconciler's only failure kind. -/
inductive ReconcileFailure where
  | weatherUnavailable
deriving DecidableEq, Repr

/-- Modelled from the spec: the Rainfall Reconciler, absent from the
visible sources.  With two successes it compares daily totals and selects
the higher provider wholesale; with one success it degrades to that
provider; with none it fails with `WeatherUnavailable` rather than
defaulting to zero rainfall. -/
def reconcile (ra rb : Except AdapterFailure RainfallObservation) :
    Except ReconcileFailure ReconciledRainfall :=
  match ra, rb with
  | .ok a, .ok b =>
      if dailyTotal b > dailyTotal a then .ok (reconciledOf b false)
      else .ok (reconciledOf a false)
  | .ok a, .error _ => .ok (reconciledOf a true)
  | .error _, .ok b => .ok (reconciledOf b true)
  | .error _, .error _ => .error .weatherUnavailable

/-- Ward metadata from the read-only Ward Registry, as echoed by the
frontend fixtures in `src/unnamed/part_001` (lines 53-59): name,
coordinates, area, drainage index and vulnerability score, plus the
optional drainage-metric enrichment. -/
structure Ward where
  ward_name : String
  latitude : ℚ
  longitude : ℚ
  area_km2 : ℚ
  drainage_index : ℚ
  vulnerability_score : ℚ
  drainage_metrics : Option (List (String × ℚ))
deriving DecidableEq, Repr

/-- The Ward Registry: an insertion-ordered, read-only sequence. -/
abbrev Registry := List Ward

/-- Modelled from the spec: the registry lookup
`lookup(ward_name) -> Ward | NotFound`, an exact-key match. -/
def lookupWard (reg : Registry) (name : String) : Option Ward :=
  reg.find? (fun w => w.ward_name == name)

/-- The upstream world a request is evaluated against: date validity and
the two weather provider adapters, each invoked with
`(latitude, longitude, date)`. -/
structure Env where
  validDate : String → Bool
  openMeteoFetch : ℚ → ℚ → String → Except AdapterFailure RainfallObservation
  openWeatherFetch : ℚ → ℚ → String → Except AdapterFailure RainfallObservation

/-- Modelled from the spec: the three fatal failure kinds a prediction
request can surface (`WardNotFound`, `InvalidDate`,
`WeatherUnavailable`). -/
inductive PredictFailure where
  | wardNotFound
  | invalidDate
  | weatherUnavailable
deriving DecidableEq, Repr

/-- Modelled from the spec: the engine's risk-tier thresholds,
`probability ≥ 0.7 → HIGH`, `0.4 ≤ probability < 0.7 → MODERATE`,
`probability < 0.4 → LOW`. -/
noncomputable def riskLevelOf (p : ℝ) : RiskLevel :=
  if p ≥ 7/10 then .HIGH
  else if p ≥ 4/10 then .MODERATE
  else .LOW

/-- The assessment value returned to the caller, with the fields the
frontend reads in `src/unnamed/part_001` and `src/src/App.jsx`
(`flood_probability`, `risk_level`, rainfall figures, `data_source`,
`vulnerability_score`, `drainage_available`, `drainage_metrics`). -/
structure FloodAssessment where
  ward_name : String
  latitude : ℚ
  longitude : ℚ
  date : String
  flood_probability : ℝ
  risk_level : RiskLevel
  total_rain_24h : ℚ
  max_hourly_rain : ℚ
  previous_day_rain : ℚ
  data_source : Provider
  degraded_source : Bool
  vulnerability_score : ℚ
  drainage_available : Bool
  drainage_metrics : Option (List (String × ℚ))

/-- Modelled from the spec: assembling a `FloodAssessment` from ward
metadata and the reconciled rainfall via the scoring model; drainage
metrics are optional enrichment and never gate the score. -/
noncomputable def assess (c : Coefficients) (w : Ward) (date : String)
    (r : ReconciledRainfall) : FloodAssessment :=
  let p := floodProbability c (r.total_rain_24h : ℝ) (r.max_hourly_rain : ℝ)
    (r.previous_day_rain : ℝ) (w.vulnerability_score : ℝ) (w.drainage_index : ℝ)
  { ward_name := w.ward_name
    latitude := w.latitude
    longitude := w.longitude
    date := date
    flood_probability := p
    risk_level := riskLevelOf p
    total_rain_24h := r.total_rain_24h
    max_hourly_rain := r.max_hourly_rain
    previous_day_rain := r.previous_day_rain
    data_source := r.data_source
    degraded_source := r.degraded
    vulnerability_score := w.vulnerability_score
    drainage_available := w.drainage_metrics.isSome
    drainage_metrics := w.drainage_metrics }

/-- Modelled from the spec: the single-ward pipeline once the ward is
known — fetch both providers, reconcile, score; total provider failure
surfaces as `WeatherUnavailable`. -/
noncomputable def predictWard (c : Coefficients) (env : Env) (w : Ward)
    (date : String) : Except PredictFailure FloodAssessment :=
  match reconcile (env.openMeteoFetch w.latitude w.longitude date)
      (env.openWeatherFetch w.latitude w.longitude date) with
  | .ok r => .ok (assess c w date r)
  | .error .weatherUnavailable => .error .weatherUnavailable

/-- Modelled from the spec: the single-ward prediction request
`(ward_name, date)` — registry lookup, date validation, then the
pipeline; the result is a complete assessment or one of the three typed
fatal failures. -/
noncomputable def predict (c : Coefficients) (env : Env) (reg : Registry)
    (name date : String) : Except PredictFailure FloodAssessment :=
  match lookupWard reg name with
  | none => .error .wardNotFound
  | some w =>
      if env.validDate date then predictWard c env w date
      else .error .invalidDate

/-- Modelled from the spec: the backend's error-to-status boundary
contract (`WardNotFound → 404`, `InvalidDate → 400`,
`WeatherUnavailable → 503`); the HTTP handler itself is not in the
visible sources. -/
def statusOf : PredictFailure → Nat
  | .wardNotFound => 404
  | .invalidDate => 400
  | .weatherUnavailable => 503

/-- The user-visible outcomes of `handlePredict` in `src/src/App.jsx`:
show the prediction, show the dedicated weather-unavailable banner, or
show one of the error messages. -/
inductive FrontendOutcome where
  | showPrediction
  | weatherBanner
  | locationError (msg : String)
  | dateError (msg : String)
  | genericError (msg : String)
deriving DecidableEq, Repr

/-- From `src/src/App.jsx` lines 54-67 (identically in
`src/unnamed/part_001` lines 140-154): on a failed response the frontend
reads `detail` (defaulting to "Prediction failed") and branches on the
HTTP status code alone — `503` shows the weather banner, `404` throws a
location error, `400` a date error, anything else a generic error. -/
def handlePredictResponse (ok : Bool) (status : Nat)
    (detail : Option String) : FrontendOutcome :=
  if ok then .showPrediction
  else
    let errorMessage := detail.getD "Prediction failed"
    if status == 503 then .weatherBanner
    else if status == 404 then .locationError ("📍 Location Error: " ++ errorMessage)
    else if status == 400 then .dateError ("📅 Date Error: " ++ errorMessage)
    else .genericError errorMessage

/-- The branch a frontend outcome was produced by, ignoring message
text. -/
def outcomeKind : FrontendOutcome → Nat
  | .showPrediction => 0
  | .weatherBanner => 1
  | .locationError _ => 2
  | .dateError _ => 3
  | .genericError _ => 4

/-- Modelled from the spec: the single-ward assessment pipeline as a
step-by-step evaluation relation — registry lookup, date validation,
provider fan-out, reconciliation, scoring.  The relation makes the
determinism claim statable: no randomness or request-dependent state
appears in any rule, so the result is functionally determined by the
ward name, the date and the upstream data. -/
inductive Evaluates (c : Coefficients) (env : Env) (reg : Registry)
    (name date : String) : Except PredictFailure FloodAssessment → Prop where
  | wardMissing :
      lookupWard reg name = none →
      Evaluates c env reg name date (.error .wardNotFound)
  | badDate (w : Ward) :
      lookupWard reg name = some w →
      env.validDate date = false →
      Evaluates c env reg name date (.error .invalidDate)
  | noWeather (w : Ward) :
      lookupWard reg name = some w →
      env.validDate date = true →
      reconcile (env.openMeteoFetch w.latitude w.longitude date)
        (env.openWeatherFetch w.latitude w.longitude date) =
        .error .weatherUnavailable →
      Evaluates c env reg name date (.error .weatherUnavailable)
  | scored (w : Ward) (r : ReconciledRainfall) :
      lookupWard reg name = some w →
      env.validDate date = true →
      reconcile (env.openMeteoFetch w.latitude w.longitude date)
        (env.openWeatherFetch w.latitude w.longitude date) = .ok r →
      Evaluates c env reg name date (.ok (assess c w date r))

/-- Modelled from the spec: the Batch Evaluator — one entry per
registered ward, in registry insertion order; each ward is evaluated
independently, and a ward whose weather is unavailable is recorded with
its explicit typed marker instead of aborting the batch. -/
noncomputable def batchEvaluate (c : Coefficients) (env : Env)
    (reg : Registry) (date : String) :
    List (String × Except PredictFailure FloodAssessment) :=
  reg.map (fun w => (w.ward_name, predictWard c env w date))

/-- One entry of the ward-probabilities map the map view displays; the
catch block of `fetchWardProbabilities` fabricates entries of this shape
(`src/unnamed/part_001` lines 103-109). -/
structure FallbackWardEntry where
  ward_name : String
  latitude : ℚ
  longitude : ℚ
  flood_probability : ℚ
  risk_level : RiskLevel
deriving DecidableEq, Repr

/-- From `src/unnamed/part_001` lines 66-116 (`fetchWardProbabilities`):
the user-visible outcome of the map's batch fetch.  On a successful
response the displayed map is built from the response entries keyed by
ward name; on a failed request the catch block (lines 94-112) fabricates
`Math.random() * 0.8 + 0.1` as each ward's probability, tiers it with the
same strict ternary, and displays those — with no user-visible error (the
catch only logs to the console; the `Bool` component records whether an
error is shown to the user, `false` on both paths).  The random draws of
`Math.random()` are passed explicitly. -/
def fetchWardProbabilitiesView (wards : List Ward)
    (batchResponse : Option (List FallbackWardEntry))
    (randomDraw : Ward → ℚ) :
    List (String × FallbackWardEntry) × Bool :=
  match batchResponse with
  | some data => (data.map (fun w => (w.ward_name, w)), false)
  | none =>
      (wards.map (fun w =>
        let probability := randomDraw w * (8/10) + 1/10
        (w.ward_name,
         { ward_name := w.ward_name
           latitude := w.latitude
           longitude := w.longitude
           flood_probability := probability
           risk_level := fallbackRiskLevel probability })), false)

/-- What the risk-factors card renders for drainage: the metrics list, the
"Drainage data unavailable" notice, or nothing. -/
inductive DrainageView where
  | metricsList (m : List (String × ℚ))
  | unavailableNotice
  | empty
deriving DecidableEq, Repr

/-- From `src/unnamed/part_001` lines 419-447 (identically
`src/src/App.jsx` lines 250-269): the drainage section renders the
metrics when `drainage_available && drainage_metrics`, and the
unavailable notice when `!drainage_available`; the assessment itself is
accepted and displayed either way. -/
def renderDrainage (p : FloodAssessment) : DrainageView :=
  if p.drainage_available then
    match p.drainage_metrics with
    | some m => .metricsList m
    | none => .empty
  else .unavailableNotice

/-- One entry of the ward-probabilities map the frontend builds from the
batch response (`src/unnamed/part_001` lines 87-92). -/
structure WardProb where
  ward_name : String
  flood_probability : ℚ
  risk_level : RiskLevel
deriving DecidableEq, Repr

/-- The ward-probabilities object, keys in insertion order; the frontend
builds it with `probabilitiesMap[ward.ward_name] = ward`. -/
abbrev ProbMap := List (String × WardProb)

/-- Exact-key lookup `wardProbabilities[wardName]`. -/
def exactLookup (m : ProbMap) (k : String) : Option WardProb :=
  (m.find? (fun e => e.1 == k)).map (fun e => e.2)

/-- JavaScript `toLowerCase()` on the ward names. -/
def lowerStr (s : String) : String := s.map Char.toLower

/-- From `src/src/LeafletMapModal.jsx` lines 50-55: the case-insensitive
pass over `Object.values(wardProbabilities)`. -/
def ciFind (m : ProbMap) (k : String) : Option WardProb :=
  (m.map (fun e => e.2)).find? (fun w => lowerStr w.ward_name == lowerStr k)

/-- Whether the character list `s` starts with `pat`. -/
def charsStartWith : List Char → List Char → Bool
  | _, [] => true
  | [], _ :: _ => false
  | a :: as, b :: bs => a == b && charsStartWith as bs

/-- Whether `pat` occurs contiguously inside `s` (JavaScript
`String.includes`). -/
def charsContain (s pat : List Char) : Bool :=
  charsStartWith s pat ||
    match s with
    | [] => false
    | _ :: as => charsContain as pat

/-- JavaScript `a.includes(b)` on strings. -/
def strContainsSub (s pat : String) : Bool := charsContain s.data pat.data

/-- From `src/src/LeafletMapModal.jsx` lines 58-64: the partial-match
pass, testing containment in either direction on lowercased names. -/
def subFind (m : ProbMap) (k : String) : Option WardProb :=
  (m.map (fun e => e.2)).find? (fun w =>
    strContainsSub (lowerStr w.ward_name) (lowerStr k) ||
    strContainsSub (lowerStr k) (lowerStr w.ward_name))

/-- From `src/src/LeafletMapModal.jsx` lines 47-64 (`getWardStyle`): the
fuzzy resolution with fixed precedence — exact key first, then the
case-insensitive pass, then the partial-match pass. -/
def resolveWardData (m : ProbMap) (k : String) : Option WardProb :=
  match exactLookup m k with
  | some w => some w
  | none =>
      match ciFind m k with
      | some w => some w
      | none => subFind m k

/-- The fill colour a ward polygon gets in `getWardStyle`. -/
inductive FillColor where
  | selectedBlue
  | hoveredBlue
  | hsl (hue : ℚ)
  | defaultGray
deriving DecidableEq, Repr

/-- From `src/src/LeafletMapModal.jsx` lines 34-40 (`getFloodColor`):
`hue = (1 - probability) * 120`. -/
def getFloodColorHue (probability : ℚ) : ℚ := (1 - probability) * 120

/-- From `src/src/LeafletMapModal.jsx` lines 42-79 (`getWardStyle`): the
fill colour — selection and hover override, otherwise the resolved
entry's probability colour, defaulting to gray. -/
def getWardStyleFill (selected hovered : Bool) (m : ProbMap)
    (wardName : String) : FillColor :=
  if selected then .selectedBlue
  else if hovered then .hoveredBlue
  else
    match resolveWardData m wardName with
    | some w => .hsl (getFloodColorHue w.flood_probability)
    | none => .defaultGray

/-- The body the frontend sends to the prediction endpoint. -/
structure PredictRequest where
  ward_name : String
  date : String
deriving DecidableEq, Repr

/-- From `src/src/App.jsx` lines 48-51 (identically
`src/unnamed/part_001` lines 134-137): `handlePredict` sends the selected
ward name and date unmodified in the request body. -/
def predictRequest (selectedWard selectedDate : String) : PredictRequest :=
  { ward_name := selectedWard, date := selectedDate }

/-- JavaScript's numeric specials, needed because `MapModal.jsx` seeds
its bounding-box reduce with the infinities and divides without guarding
a zero range: exact rationals plus `NaN` and the signed infinities. -/
inductive JVal where
  | num (q : ℚ)
  | nan
  | inf
  | ninf
deriving DecidableEq, Repr

/-- JavaScript `Math.min` on two values. -/
def jmin : JVal → JVal → JVal
  | .nan, _ => .nan
  | _, .nan => .nan
  | .ninf, _ => .ninf
  | _, .ninf => .ninf
  | .inf, y => y
  | x, .inf => x
  | .num a, .num b => .num (min a b)

/-- JavaScript `Math.max` on two values. -/
def jmax : JVal → JVal → JVal
  | .nan, _ => .nan
  | _, .nan => .nan
  | .inf, _ => .inf
  | _, .inf => .inf
  | .ninf, y => y
  | x, .ninf => x
  | .num a, .num b => .num (max a b)

/-- JavaScript subtraction. -/
def jsub : JVal → JVal → JVal
  | .nan, _ => .nan
  | _, .nan => .nan
  | .inf, .inf => .nan
  | .inf, _ => .inf
  | .ninf, .ninf => .nan
  | .ninf, _ => .ninf
  | .num _, .inf => .ninf
  | .num _, .ninf => .inf
  | .num a, .num b => .num (a - b)

/-- JavaScript division: a zero denominator gives `NaN` (for `0/0`) or a
signed infinity instead of failing. -/
def jdiv : JVal → JVal → JVal
  | .nan, _ => .nan
  | _, .nan => .nan
  | .inf, .inf => .nan
  | .inf, .ninf => .nan
  | .ninf, .inf => .nan
  | .ninf, .ninf => .nan
  | .inf, .num b => if b < 0 then .ninf else .inf
  | .ninf, .num b => if b < 0 then .inf else .ninf
  | .num _, .inf => .num 0
  | .num _, .ninf => .num 0
  | .num a, .num b =>
      if b = 0 then
        if a = 0 then .nan else if 0 < a then .inf else .ninf
      else .num (a / b)

/-- JavaScript multiplication. -/
def jmul : JVal → JVal → JVal
  | .nan, _ => .nan
  | _, .nan => .nan
  | .inf, .inf => .inf
  | .inf, .ninf => .ninf
  | .ninf, .inf => .ninf
  | .ninf, .ninf => .inf
  | .inf, .num b => if b = 0 then .nan else if 0 < b then .inf else .ninf
  | .num a, .inf => if a = 0 then .nan else if 0 < a then .inf else .ninf
  | .ninf, .num b => if b = 0 then .nan else if 0 < b then .ninf else .inf
  | .num a, .ninf => if a = 0 then .nan else if 0 < a then .ninf else .inf
  | .num a, .num b => .num (a * b)

/-- The bounding box accumulated by `MapModal.jsx`. -/
structure MapBounds where
  minLat : JVal
  maxLat : JVal
  minLon : JVal
  maxLon : JVal
deriving DecidableEq, Repr

/-- From `src/src/MapModal.jsx` lines 16-28: `wards.reduce` accumulating
`Math.min`/`Math.max` of every ward's coordinates, seeded with
`Infinity`/`-Infinity`. -/
def wardBounds (wards : List Ward) : MapBounds :=
  wards.foldl (fun acc w =>
    { minLat := jmin acc.minLat (.num w.latitude)
      maxLat := jmax acc.maxLat (.num w.latitude)
      minLon := jmin acc.minLon (.num w.longitude)
      maxLon := jmax acc.maxLon (.num w.longitude) })
    { minLat := .inf, maxLat := .ninf, minLon := .inf, maxLon := .ninf }

/-- From `src/src/MapModal.jsx` line 32: `latRange = maxLat - minLat`. -/
def latRange (wards : List Ward) : JVal :=
  jsub (wardBounds wards).maxLat (wardBounds wards).minLat

/-- From `src/src/MapModal.jsx` line 33: `lonRange = maxLon - minLon`. -/
def lonRange (wards : List Ward) : JVal :=
  jsub (wardBounds wards).maxLon (wardBounds wards).minLon

/-- From `src/src/MapModal.jsx` lines 35-39 (`getPixelPosition`), with
`mapWidth = 800` and `mapHeight = 600`:
`x = ((lon - minLon) / lonRange) * mapWidth` and
`y = ((maxLat - lat) / latRange) * mapHeight`; both divisions are
unguarded. -/
def getPixelPosition (wards : List Ward) (lat lon : ℚ) : JVal × JVal :=
  (jmul (jdiv (jsub (.num lon) (wardBounds wards).minLon) (lonRange wards))
    (.num 800),
   jmul (jdiv (jsub (wardBounds wards).maxLat (.num lat)) (latRange wards))
    (.num 600))

end FloodPredictor

namespace FloodPredictor

/-- C1 (counterexample): the claim asserts that probability `0.70` maps to
`HIGH` and probability `0.40` maps to `MODERATE`; on the tier-mapping code
in the sources (strict comparisons) `0.70` maps to `MODERATE` and `0.40`
maps to `LOW`. -/
theorem riskTier_boundary_counterexample :
    fallbackRiskLevel (7/10) = RiskLevel.MODERATE ∧
    fallbackRiskLevel (7/10) ≠ RiskLevel.HIGH ∧
    fallbackRiskLevel (4/10) = RiskLevel.LOW ∧
    fallbackRiskLevel (4/10) ≠ RiskLevel.MODERATE := by
  refine ⟨?_, ?_, ?_, ?_⟩
  all_goals norm_num [fallbackRiskLevel]
  all_goals decide

/-- C1 (amended): the tier mapping implemented in the sources is exact at
the boundaries with strict thresholds: `p > 0.7` yields `HIGH`,
`0.4 < p ≤ 0.7` yields `MODERATE`, and `p ≤ 0.4` yields `LOW`; in
particular probability `0.70` maps to `MODERATE` and `0.40` maps to
`LOW`. -/
theorem riskTier_strict_boundaries (p : ℚ) :
    (7/10 < p → fallbackRiskLevel p = RiskLevel.HIGH) ∧
    (4/10 < p → p ≤ 7/10 → fallbackRiskLevel p = RiskLevel.MODERATE) ∧
    (p ≤ 4/10 → fallbackRiskLevel p = RiskLevel.LOW) := by
  refine ⟨fun h => ?_, fun h1 h2 => ?_, fun h => ?_⟩
  · simp [fallbackRiskLevel, h]
  · simp [fallbackRiskLevel, not_lt.mpr h2, h1]
  · have h7 : ¬ (7/10 < p) := not_lt.mpr (le_trans h (by norm_num))
    have h4 : ¬ (4/10 < p) := not_lt.mpr h
    simp [fallbackRiskLevel, h7, h4]

/-- C1 (witness): instantiating the amended boundary theorem at the
concrete probabilities `0.75`, `0.70` and `0.40`. -/
theorem riskTier_strict_boundaries_witness :
    fallbackRiskLevel (3/4) = RiskLevel.HIGH ∧
    fallbackRiskLevel (7/10) = RiskLevel.MODERATE ∧
    fallbackRiskLevel (4/10) = RiskLevel.LOW :=
  ⟨(riskTier_strict_boundaries (3/4)).1 (by norm_num),
   (riskTier_strict_boundaries (7/10)).2.1 (by norm_num) (by norm_num),
   (riskTier_strict_boundaries (4/10)).2.2 (by norm_num)⟩

/-- C2: for every rainfall input — every value of the engineered features,
including the extreme `total_rain_24h = 10000` — the flood probability
produced by the scoring model lies in the closed interval `[0,1]`. -/
theorem floodProbability_mem_unit_interval (c : Coefficients)
    (t m p v d : ℝ) :
    (0 ≤ floodProbability c t m p v d ∧ floodProbability c t m p v d ≤ 1) ∧
    (0 ≤ floodProbability c 10000 m p v d ∧
      floodProbability c 10000 m p v d ≤ 1) := by
  constructor <;>
    exact ⟨le_min zero_le_one (le_max_left 0 _), min_le_left 1 _⟩

/-- C3: when both providers succeed, the reconciler selects wholesale the
provider whose daily total is higher: the result is built entirely from
that provider's observation, so its `data_source` is that provider's
identity, its total is that provider's total, and its peak hourly value
is that provider's peak (no interleaving of hours across providers). -/
theorem reconcile_selects_higher_total (a b : RainfallObservation) :
    (dailyTotal a < dailyTotal b →
      reconcile (.ok a) (.ok b) = .ok (reconciledOf b false) ∧
      (reconciledOf b false).data_source = b.provider ∧
      (reconciledOf b false).total_rain_24h = dailyTotal b ∧
      (reconciledOf b false).max_hourly_rain = maxHourlyRain b) ∧
    (dailyTotal b < dailyTotal a →
      reconcile (.ok a) (.ok b) = .ok (reconciledOf a false) ∧
      (reconciledOf a false).data_source = a.provider ∧
      (reconciledOf a false).total_rain_24h = dailyTotal a ∧
      (reconciledOf a false).max_hourly_rain = maxHourlyRain a) := by
  constructor
  · intro h
    refine ⟨?_, rfl, rfl, rfl⟩
    simp [reconcile, h]
  · intro h
    refine ⟨?_, rfl, rfl, rfl⟩
    simp [reconcile, not_lt.mpr (le_of_lt h)]

/-- C3 (witness): provider A (Open-Meteo) totals 40 mm and provider B
(OpenWeatherMap) totals 65 mm; the reconciler selects B wholesale, so
`data_source` is B's identity and `total_rain_24h = 65`. -/
theorem reconcile_selects_higher_total_witness :
    reconcile (.ok ⟨Provider.openMeteo, [10, 10, 10, 10], none⟩)
        (.ok ⟨Provider.openWeatherMap, [20, 20, 25], none⟩) =
      .ok (reconciledOf ⟨Provider.openWeatherMap, [20, 20, 25], none⟩ false) ∧
    (reconciledOf ⟨Provider.openWeatherMap, [20, 20, 25], none⟩
        false).data_source = Provider.openWeatherMap ∧
    (reconciledOf ⟨Provider.openWeatherMap, [20, 20, 25], none⟩
        false).total_rain_24h = 65 := by
  have h := (reconcile_selects_higher_total
    ⟨Provider.openMeteo, [10, 10, 10, 10], none⟩
    ⟨Provider.openWeatherMap, [20, 20, 25], none⟩).1
    (by norm_num [dailyTotal])
  exact ⟨h.1, h.2.1, by rw [h.2.2.1]; norm_num [dailyTotal]⟩

/-- C4 (counterexample): the claim's universal clause — the user-visible
result is "never a silent substitute probability" whenever weather data
cannot be obtained — fails on the cited code: at a concrete failed batch
request with one registered ward, the catch block of
`fetchWardProbabilities` shows no user-visible error, and the displayed
map carries a fabricated probability that merely echoes the random draw
(`draw 1/2` displays `0.5`, `draw 3/4` displays `0.7`) instead of any
typed failure. -/
theorem batchFallback_silent_substitute_counterexample :
    (fetchWardProbabilitiesView [⟨"Koramangala", 1, 2, 5, 0, 1, none⟩]
      none (fun _ => 1/2)).2 = false ∧
    ((fetchWardProbabilitiesView [⟨"Koramangala", 1, 2, 5, 0, 1, none⟩]
      none (fun _ => 1/2)).1.map
        (fun e => e.2.flood_probability)) = [1/2] ∧
    ((fetchWardProbabilitiesView [⟨"Koramangala", 1, 2, 5, 0, 1, none⟩]
      none (fun _ => 3/4)).1.map
        (fun e => e.2.flood_probability)) = [7/10] := by
  refine ⟨rfl, ?_, ?_⟩ <;> norm_num [fetchWardProbabilitiesView]

/-- C4 (amended): the never-a-silent-substitute guarantee holds at the
engine boundary, not for the map view's batch-fetch fallback: when both
weather providers fail, the single-ward caller receives the typed
`WeatherUnavailable` failure and never a fabricated or zero-rainfall
assessment, and the single-ward presentation surfaces that failure as
the dedicated weather banner — visibly, and never as a prediction. -/
theorem predict_weatherUnavailable_on_total_failure
    (c : Coefficients) (env : Env) (reg : Registry) (name date : String)
    (w : Ward) (hw : lookupWard reg name = some w)
    (hd : env.validDate date = true)
    (f1 f2 : AdapterFailure)
    (h1 : env.openMeteoFetch w.latitude w.longitude date = .error f1)
    (h2 : env.openWeatherFetch w.latitude w.longitude date = .error f2) :
    predict c env reg name date = .error .weatherUnavailable ∧
    (∀ a : FloodAssessment, predict c env reg name date ≠ .ok a) ∧
    (∀ d, handlePredictResponse false (statusOf .weatherUnavailable) d =
        .weatherBanner ∧
      handlePredictResponse false (statusOf .weatherUnavailable) d ≠
        .showPrediction) := by
  have hmain : predict c env reg name date = .error .weatherUnavailable := by
    unfold predict
    rw [hw]
    simp only [hd, if_true]
    unfold predictWard
    rw [h1, h2]
    rfl
  refine ⟨hmain, ?_, ?_⟩
  · intro a h
    rw [hmain] at h
    exact Except.noConfusion h
  · intro d
    exact ⟨rfl, by simp [handlePredictResponse, statusOf]⟩

/-- C4 (witness): a concrete request whose two adapters fail with
`ProviderUnavailable` and `NoData`; the result is the typed
`WeatherUnavailable` failure. -/
theorem predict_weatherUnavailable_witness :
    predict ⟨0, 0, 0, 0, 0, 0⟩
      ⟨fun _ => true,
       fun _ _ _ => .error .providerUnavailable,
       fun _ _ _ => .error .noData⟩
      [⟨"Koramangala", 12.9337, 77.6284, 5.2, 0.3, 0.7, none⟩]
      "Koramangala" "2024-06-01" = .error .weatherUnavailable :=
  (predict_weatherUnavailable_on_total_failure
    ⟨0, 0, 0, 0, 0, 0⟩
    ⟨fun _ => true,
     fun _ _ _ => .error .providerUnavailable,
     fun _ _ _ => .error .noData⟩
    [⟨"Koramangala", 12.9337, 77.6284, 5.2, 0.3, 0.7, none⟩]
    "Koramangala" "2024-06-01"
    ⟨"Koramangala", 12.9337, 77.6284, 5.2, 0.3, 0.7, none⟩
    (by rfl) (by rfl) .providerUnavailable .noData (by rfl) (by rfl)).1

/-- C5: the three fatal failure kinds are programmatically
distinguishable at the boundary: the status mapping sends `WardNotFound`
to 404, `InvalidDate` to 400 and `WeatherUnavailable` to 503 and is
injective, and the presentation layer branches on exactly these status
codes, not on message text — each kind lands in its own frontend branch,
and the branch taken is independent of the response message. -/
theorem statusMapping_distinguishes_failures :
    statusOf .wardNotFound = 404 ∧
    statusOf .invalidDate = 400 ∧
    statusOf .weatherUnavailable = 503 ∧
    (∀ f g : PredictFailure, statusOf f = statusOf g → f = g) ∧
    (∀ d, handlePredictResponse false (statusOf .weatherUnavailable) d =
      .weatherBanner) ∧
    (∀ d, outcomeKind
      (handlePredictResponse false (statusOf .wardNotFound) d) = 2) ∧
    (∀ d, outcomeKind
      (handlePredictResponse false (statusOf .invalidDate) d) = 3) ∧
    (∀ s d1 d2, outcomeKind (handlePredictResponse false s d1) =
      outcomeKind (handlePredictResponse false s d2)) := by
  refine ⟨rfl, rfl, rfl, ?_, fun d => rfl, fun d => rfl, fun d => rfl, ?_⟩
  · intro f g h
    cases f <;> cases g <;> simp_all [statusOf]
  · intro s d1 d2
    unfold handlePredictResponse
    split_ifs <;> rfl

/-- C5 (witness): applying the status-mapping theorem at concrete
inputs — injectivity at `WardNotFound`, and the frontend branch for a
concrete 503 response with a concrete message. -/
theorem statusMapping_distinguishes_failures_witness :
    PredictFailure.wardNotFound = PredictFailure.wardNotFound ∧
    handlePredictResponse false 503 (some "no forecast") =
      FrontendOutcome.weatherBanner :=
  ⟨statusMapping_distinguishes_failures.2.2.2.1 .wardNotFound .wardNotFound rfl,
   statusMapping_distinguishes_failures.2.2.2.2.1 (some "no forecast")⟩

/-- Every evaluation derivation agrees with the pipeline function: the
relation has no freedom beyond what `predict` computes. -/
theorem evaluates_agrees_predict (c : Coefficients) (env : Env)
    (reg : Registry) (name date : String)
    (r : Except PredictFailure FloodAssessment)
    (h : Evaluates c env reg name date r) :
    predict c env reg name date = r := by
  cases h with
  | wardMissing hl =>
      unfold predict
      rw [hl]
  | badDate w hl hd =>
      unfold predict
      rw [hl]
      simp [hd]
  | noWeather w hl hd hr =>
      unfold predict
      rw [hl]
      simp only [hd, if_true]
      unfold predictWard
      rw [hr]
  | scored w r hl hd hr =>
      unfold predict
      rw [hl]
      simp only [hd, if_true]
      unfold predictWard
      rw [hr]

/-- C6: the assessment pipeline is deterministic — two evaluations of the
same `(ward_name, date)` request against the same upstream environment
produce identical `FloodAssessment` results, and both equal the value the
pipeline function computes; no randomness or request-dependent state can
influence the outcome. -/
theorem evaluate_deterministic (c : Coefficients) (env : Env)
    (reg : Registry) (name date : String)
    (r1 r2 : Except PredictFailure FloodAssessment)
    (h1 : Evaluates c env reg name date r1)
    (h2 : Evaluates c env reg name date r2) :
    r1 = r2 ∧ r1 = predict c env reg name date :=
  have e1 := evaluates_agrees_predict c env reg name date r1 h1
  have e2 := evaluates_agrees_predict c env reg name date r2 h2
  ⟨e1.symm.trans e2, e1.symm⟩

/-- C6 (witness): two evaluation derivations of the same concrete
request coincide and equal the pipeline result. -/
theorem evaluate_deterministic_witness :
    (Except.ok (assess ⟨0, 0, 0, 0, 0, 0⟩
        ⟨"Koramangala", 1, 2, 5, 0, 1, none⟩ "2024-06-01"
        (reconciledOf ⟨Provider.openMeteo, [5, 3], some [2]⟩ true)) :
      Except PredictFailure FloodAssessment) =
      predict ⟨0, 0, 0, 0, 0, 0⟩
        ⟨fun _ => true,
         fun _ _ _ => .ok ⟨Provider.openMeteo, [5, 3], some [2]⟩,
         fun _ _ _ => .error .providerUnavailable⟩
        [⟨"Koramangala", 1, 2, 5, 0, 1, none⟩]
        "Koramangala" "2024-06-01" :=
  (evaluate_deterministic ⟨0, 0, 0, 0, 0, 0⟩
    ⟨fun _ => true,
     fun _ _ _ => .ok ⟨Provider.openMeteo, [5, 3], some [2]⟩,
     fun _ _ _ => .error .providerUnavailable⟩
    [⟨"Koramangala", 1, 2, 5, 0, 1, none⟩]
    "Koramangala" "2024-06-01" _ _
    (Evaluates.scored ⟨"Koramangala", 1, 2, 5, 0, 1, none⟩
      (reconciledOf ⟨Provider.openMeteo, [5, 3], some [2]⟩ true)
      (by rfl) (by rfl) (by rfl))
    (Evaluates.scored ⟨"Koramangala", 1, 2, 5, 0, 1, none⟩
      (reconciledOf ⟨Provider.openMeteo, [5, 3], some [2]⟩ true)
      (by rfl) (by rfl) (by rfl))).2

/-- With a successful left observation the reconciler always produces a
profile, whatever the right result is. -/
theorem reconcile_ok_left (o : RainfallObservation)
    (x : Except AdapterFailure RainfallObservation) :
    ∃ r, reconcile (.ok o) x = .ok r := by
  cases x with
  | ok b =>
      by_cases h : dailyTotal b > dailyTotal o
      · exact ⟨reconciledOf b false, by simp [reconcile, h]⟩
      · exact ⟨reconciledOf o false, by simp [reconcile, h]⟩
  | error e => exact ⟨reconciledOf o true, rfl⟩

/-- With a successful right observation the reconciler always produces a
profile, whatever the left result is. -/
theorem reconcile_ok_right (o : RainfallObservation)
    (x : Except AdapterFailure RainfallObservation) :
    ∃ r, reconcile x (.ok o) = .ok r := by
  cases x with
  | ok a =>
      by_cases h : dailyTotal o > dailyTotal a
      · exact ⟨reconciledOf o false, by simp [reconcile, h]⟩
      · exact ⟨reconciledOf a false, by simp [reconcile, h]⟩
  | error e => exact ⟨reconciledOf o true, rfl⟩

/-- C7: batch evaluation isolates per-ward failures: the batch always has
exactly one entry per registered ward, each ward's entry depends only on
that ward's own provider calls, and every ward for which at least one
provider succeeds receives a complete assessment — so if exactly one
ward's providers both fail, the other wards' assessments are all still
present and the batch is not aborted. -/
theorem batchEvaluate_isolates_failures (c : Coefficients) (env : Env)
    (reg : Registry) (date : String) :
    (batchEvaluate c env reg date).length = reg.length ∧
    (∀ w ∈ reg,
      (w.ward_name, predictWard c env w date) ∈ batchEvaluate c env reg date) ∧
    (∀ w ∈ reg, ∀ o,
      env.openMeteoFetch w.latitude w.longitude date = .ok o →
      ∃ a, predictWard c env w date = .ok a) ∧
    (∀ w ∈ reg, ∀ o,
      env.openWeatherFetch w.latitude w.longitude date = .ok o →
      ∃ a, predictWard c env w date = .ok a) := by
  refine ⟨List.length_map _ _, fun w hw => List.mem_map_of_mem _ hw, ?_, ?_⟩
  · intro w hw o ho
    obtain ⟨r, hr⟩ := reconcile_ok_left o
      (env.openWeatherFetch w.latitude w.longitude date)
    refine ⟨assess c w date r, ?_⟩
    unfold predictWard
    rw [ho, hr]
  · intro w hw o ho
    obtain ⟨r, hr⟩ := reconcile_ok_right o
      (env.openMeteoFetch w.latitude w.longitude date)
    refine ⟨assess c w date r, ?_⟩
    unfold predictWard
    rw [ho, hr]

/-- C7 (witness): a three-ward registry in which the middle ward's two
providers both fail; the batch still has three entries, the two healthy
wards receive assessments, and the failing ward carries its explicit
unavailable marker. -/
theorem batchEvaluate_isolates_failures_witness :
    (batchEvaluate ⟨0, 0, 0, 0, 0, 0⟩
        ⟨fun _ => true,
         fun lat _ _ => if lat = 2 then .error .providerUnavailable
           else .ok ⟨Provider.openMeteo, [5], none⟩,
         fun _ _ _ => .error .noData⟩
        [⟨"A", 1, 1, 1, 0, 1, none⟩, ⟨"B", 2, 2, 1, 0, 1, none⟩,
         ⟨"C", 3, 3, 1, 0, 1, none⟩] "2024-06-01").length = 3 ∧
    (∃ a, predictWard ⟨0, 0, 0, 0, 0, 0⟩
        ⟨fun _ => true,
         fun lat _ _ => if lat = 2 then .error .providerUnavailable
           else .ok ⟨Provider.openMeteo, [5], none⟩,
         fun _ _ _ => .error .noData⟩
        ⟨"A", 1, 1, 1, 0, 1, none⟩ "2024-06-01" = .ok a) ∧
    (∃ a, predictWard ⟨0, 0, 0, 0, 0, 0⟩
        ⟨fun _ => true,
         fun lat _ _ => if lat = 2 then .error .providerUnavailable
           else .ok ⟨Provider.openMeteo, [5], none⟩,
         fun _ _ _ => .error .noData⟩
        ⟨"C", 3, 3, 1, 0, 1, none⟩ "2024-06-01" = .ok a) ∧
    predictWard ⟨0, 0, 0, 0, 0, 0⟩
        ⟨fun _ => true,
         fun lat _ _ => if lat = 2 then .error .providerUnavailable
           else .ok ⟨Provider.openMeteo, [5], none⟩,
         fun _ _ _ => .error .noData⟩
        ⟨"B", 2, 2, 1, 0, 1, none⟩ "2024-06-01" =
      .error .weatherUnavailable := by
  have h := batchEvaluate_isolates_failures ⟨0, 0, 0, 0, 0, 0⟩
    ⟨fun _ => true,
     fun lat _ _ => if lat = 2 then .error .providerUnavailable
       else .ok ⟨Provider.openMeteo, [5], none⟩,
     fun _ _ _ => .error .noData⟩
    [⟨"A", 1, 1, 1, 0, 1, none⟩, ⟨"B", 2, 2, 1, 0, 1, none⟩,
     ⟨"C", 3, 3, 1, 0, 1, none⟩] "2024-06-01"
  refine ⟨h.1, ?_, ?_, ?_⟩
  · exact h.2.2.1 ⟨"A", 1, 1, 1, 0, 1, none⟩ (List.mem_cons_self _ _)
      ⟨Provider.openMeteo, [5], none⟩ (by norm_num)
  · exact h.2.2.1 ⟨"C", 3, 3, 1, 0, 1, none⟩
      (List.mem_cons_of_mem _ (List.mem_cons_of_mem _ (List.mem_cons_self _ _)))
      ⟨Provider.openMeteo, [5], none⟩ (by norm_num)
  · unfold predictWard
    norm_num
    rfl

/-- C8: absence of drainage metrics never blocks scoring or presentation:
an assessment with `drainage_available = false` is rendered with the
unavailable notice in place of the drainage section, not treated as an
error; and the score and the rest of the assessment are computed
identically whether or not the ward carries drainage metrics. -/
theorem drainage_unavailable_presented (a : FloodAssessment)
    (h : a.drainage_available = false) :
    renderDrainage a = .unavailableNotice ∧
    (∀ (c : Coefficients) (w : Ward) (d : String) (r : ReconciledRainfall),
      (assess c { w with drainage_metrics := none } d r).flood_probability =
        (assess c w d r).flood_probability ∧
      (assess c { w with drainage_metrics := none } d r).risk_level =
        (assess c w d r).risk_level ∧
      (assess c { w with drainage_metrics := none } d r).drainage_available =
        false) := by
  refine ⟨?_, fun c w d r => ⟨rfl, rfl, rfl⟩⟩
  simp [renderDrainage, h]

/-- C8 (witness): a concrete assessment with `drainage_available = false`
renders the unavailable notice. -/
theorem drainage_unavailable_presented_witness :
    renderDrainage
      { ward_name := "Koramangala", latitude := 1, longitude := 2,
        date := "2024-06-01", flood_probability := 0,
        risk_level := RiskLevel.LOW, total_rain_24h := 0,
        max_hourly_rain := 0, previous_day_rain := 0,
        data_source := Provider.openMeteo, degraded_source := false,
        vulnerability_score := 0, drainage_available := false,
        drainage_metrics := none } = DrainageView.unavailableNotice :=
  (drainage_unavailable_presented
    { ward_name := "Koramangala", latitude := 1, longitude := 2,
      date := "2024-06-01", flood_probability := 0,
      risk_level := RiskLevel.LOW, total_rain_24h := 0,
      max_hourly_rain := 0, previous_day_rain := 0,
      data_source := Provider.openMeteo, degraded_source := false,
      vulnerability_score := 0, drainage_available := false,
      drainage_metrics := none } rfl).1

/-- C9: the fuzzy ward-name resolution lives only in the presentation
layer and has a fixed precedence: an exact key of the ward-probabilities
map is always used as-is (and drives the style colour), the
case-insensitive pass is consulted only when the exact lookup fails, the
partial-match pass only when both fail — and the prediction request sends
the selected ward name unmodified, so the engine sees exact keys only. -/
theorem wardResolution_precedence (m : ProbMap) (k : String) :
    (∀ w, exactLookup m k = some w → resolveWardData m k = some w) ∧
    (∀ w, exactLookup m k = none → ciFind m k = some w →
      resolveWardData m k = some w) ∧
    (exactLookup m k = none → ciFind m k = none →
      resolveWardData m k = subFind m k) ∧
    (∀ w, exactLookup m k = some w →
      getWardStyleFill false false m k =
        .hsl (getFloodColorHue w.flood_probability)) ∧
    (∀ s d, (predictRequest s d).ward_name = s ∧ (predictRequest s d).date = d) := by
  refine ⟨?_, ?_, ?_, ?_, fun s d => ⟨rfl, rfl⟩⟩
  · intro w hw
    unfold resolveWardData
    rw [hw]
  · intro w he hc
    unfold resolveWardData
    rw [he, hc]
  · intro he hc
    unfold resolveWardData
    rw [he, hc]
  · intro w hw
    have hr : resolveWardData m k = some w := by
      unfold resolveWardData
      rw [hw]
    unfold getWardStyleFill
    rw [hr]
    rfl

/-- C9 (witness): a map whose key "Koramangala" is hit exactly resolves
to its own entry, bypassing the fuzzy passes, and a concrete request body
carries the selected name unmodified. -/
theorem wardResolution_precedence_witness :
    resolveWardData
        [("Koramangala", ⟨"Koramangala", 1/2, RiskLevel.MODERATE⟩)]
        "Koramangala" =
      some ⟨"Koramangala", 1/2, RiskLevel.MODERATE⟩ ∧
    (predictRequest "Koramangala" "2024-06-01").ward_name = "Koramangala" :=
  ⟨(wardResolution_precedence
      [("Koramangala", ⟨"Koramangala", 1/2, RiskLevel.MODERATE⟩)]
      "Koramangala").1 ⟨"Koramangala", 1/2, RiskLevel.MODERATE⟩ (by rfl),
   ((wardResolution_precedence
      [("Koramangala", ⟨"Koramangala", 1/2, RiskLevel.MODERATE⟩)]
      "Koramangala").2.2.2.2 "Koramangala" "2024-06-01").1⟩

/-- The record-valued bounding-box fold splits into four componentwise
folds. -/
theorem wardBounds_foldl (l : List Ward) (b : MapBounds) :
    l.foldl (fun acc w =>
      { minLat := jmin acc.minLat (.num w.latitude)
        maxLat := jmax acc.maxLat (.num w.latitude)
        minLon := jmin acc.minLon (.num w.longitude)
        maxLon := jmax acc.maxLon (.num w.longitude) }) b =
    { minLat := l.foldl (fun a w => jmin a (.num w.latitude)) b.minLat
      maxLat := l.foldl (fun a w => jmax a (.num w.latitude)) b.maxLat
      minLon := l.foldl (fun a w => jmin a (.num w.longitude)) b.minLon
      maxLon := l.foldl (fun a w => jmax a (.num w.longitude)) b.maxLon } := by
  induction l generalizing b with
  | nil => rfl
  | cons w ws ih => rw [List.foldl_cons, ih]; rfl

/-- A `Math.min` fold over finite values stays finite and computes the
rational minimum. -/
theorem foldl_jmin_num (l : List ℚ) (a : ℚ) :
    l.foldl (fun v x => jmin v (.num x)) (.num a) = .num (l.foldl min a) := by
  induction l generalizing a with
  | nil => rfl
  | cons x xs ih =>
      rw [List.foldl_cons, List.foldl_cons]
      have h : jmin (.num a) (.num x) = .num (min a x) := rfl
      rw [h, ih]

/-- A `Math.max` fold over finite values stays finite and computes the
rational maximum. -/
theorem foldl_jmax_num (l : List ℚ) (a : ℚ) :
    l.foldl (fun v x => jmax v (.num x)) (.num a) = .num (l.foldl max a) := by
  induction l generalizing a with
  | nil => rfl
  | cons x xs ih =>
      rw [List.foldl_cons, List.foldl_cons]
      have h : jmax (.num a) (.num x) = .num (max a x) := rfl
      rw [h, ih]

/-- Seeding the `Math.min` fold with `Infinity` over a nonempty finite
list gives the rational minimum. -/
theorem foldl_jmin_inf (x : ℚ) (xs : List ℚ) :
    (x :: xs).foldl (fun v y => jmin v (.num y)) .inf =
      .num (xs.foldl min x) := by
  rw [List.foldl_cons]
  have h : jmin .inf (.num x) = .num x := rfl
  rw [h, foldl_jmin_num]

/-- Seeding the `Math.max` fold with `-Infinity` over a nonempty finite
list gives the rational maximum. -/
theorem foldl_jmax_ninf (x : ℚ) (xs : List ℚ) :
    (x :: xs).foldl (fun v y => jmax v (.num y)) .ninf =
      .num (xs.foldl max x) := by
  rw [List.foldl_cons]
  have h : jmax .ninf (.num x) = .num x := rfl
  rw [h, foldl_jmax_num]

/-- A rational `min`-fold never exceeds its seed. -/
theorem foldl_min_le_init (l : List ℚ) (a : ℚ) : l.foldl min a ≤ a := by
  induction l generalizing a with
  | nil => exact le_refl a
  | cons x xs ih => exact le_trans (ih (min a x)) (min_le_left a x)

/-- A rational `min`-fold never exceeds any list member. -/
theorem foldl_min_le_mem (l : List ℚ) :
    ∀ (a x : ℚ), x ∈ l → l.foldl min a ≤ x := by
  induction l with
  | nil => intro a x hx; cases hx
  | cons y ys ih =>
      intro a x hx
      rw [List.foldl_cons]
      rcases List.mem_cons.mp hx with h | h
      · subst h
        exact le_trans (foldl_min_le_init ys (min a x)) (min_le_right a x)
      · exact ih (min a y) x h

/-- A rational `max`-fold dominates its seed. -/
theorem init_le_foldl_max (l : List ℚ) (a : ℚ) : a ≤ l.foldl max a := by
  induction l generalizing a with
  | nil => exact le_refl a
  | cons x xs ih => exact le_trans (le_max_left a x) (ih (max a x))

/-- A rational `max`-fold dominates every list member. -/
theorem mem_le_foldl_max (l : List ℚ) :
    ∀ (a x : ℚ), x ∈ l → x ≤ l.foldl max a := by
  induction l with
  | nil => intro a x hx; cases hx
  | cons y ys ih =>
      intro a x hx
      rw [List.foldl_cons]
      rcases List.mem_cons.mp hx with h | h
      · subst h
        exact le_trans (le_max_right a x) (init_le_foldl_max ys (max a x))
      · exact ih (max a y) x h

/-- A lower bound of the seed and of every member bounds the
`min`-fold. -/
theorem le_foldl_min (l : List ℚ) :
    ∀ (a v : ℚ), v ≤ a → (∀ y ∈ l, v ≤ y) → v ≤ l.foldl min a := by
  induction l with
  | nil => intro a v h _; exact h
  | cons x xs ih =>
      intro a v ha hall
      rw [List.foldl_cons]
      exact ih (min a x) v (le_min ha (hall x (List.mem_cons_self x xs)))
        (fun y hy => hall y (List.mem_cons_of_mem x hy))

/-- An upper bound of the seed and of every member bounds the
`max`-fold. -/
theorem foldl_max_le (l : List ℚ) :
    ∀ (a v : ℚ), a ≤ v → (∀ y ∈ l, y ≤ v) → l.foldl max a ≤ v := by
  induction l with
  | nil => intro a v h _; exact h
  | cons x xs ih =>
      intro a v ha hall
      rw [List.foldl_cons]
      exact ih (max a x) v (max_le ha (hall x (List.mem_cons_self x xs)))
        (fun y hy => hall y (List.mem_cons_of_mem x hy))

/-- For a nonempty ward list the bounding box is finite and equals the
componentwise rational extrema. -/
theorem wardBounds_cons_eq (w0 : Ward) (ws : List Ward) :
    wardBounds (w0 :: ws) =
      { minLat := .num ((ws.map Ward.latitude).foldl min w0.latitude)
        maxLat := .num ((ws.map Ward.latitude).foldl max w0.latitude)
        minLon := .num ((ws.map Ward.longitude).foldl min w0.longitude)
        maxLon := .num ((ws.map Ward.longitude).foldl max w0.longitude) } := by
  unfold wardBounds
  rw [wardBounds_foldl]
  have hmap : ∀ (l : List Ward) (b : JVal) (f : Ward → ℚ)
      (g : JVal → JVal → JVal),
      l.foldl (fun a w => g a (.num (f w))) b =
        (l.map f).foldl (fun v y => g v (.num y)) b := by
    intro l b f g
    rw [List.foldl_map]
  have h1 := hmap (w0 :: ws) .inf Ward.latitude jmin
  have h2 := hmap (w0 :: ws) .ninf Ward.latitude jmax
  have h3 := hmap (w0 :: ws) .inf Ward.longitude jmin
  have h4 := hmap (w0 :: ws) .ninf Ward.longitude jmax
  simp only [List.map_cons] at h1 h2 h3 h4
  rw [show ((w0 :: ws).foldl
      (fun a w => jmin a (.num w.latitude)) .inf) =
      .num ((ws.map Ward.latitude).foldl min w0.latitude) from
    h1.trans (foldl_jmin_inf _ _)]
  rw [show ((w0 :: ws).foldl
      (fun a w => jmax a (.num w.latitude)) .ninf) =
      .num ((ws.map Ward.latitude).foldl max w0.latitude) from
    h2.trans (foldl_jmax_ninf _ _)]
  rw [show ((w0 :: ws).foldl
      (fun a w => jmin a (.num w.longitude)) .inf) =
      .num ((ws.map Ward.longitude).foldl min w0.longitude) from
    h3.trans (foldl_jmin_inf _ _)]
  rw [show ((w0 :: ws).foldl
      (fun a w => jmax a (.num w.longitude)) .ninf) =
      .num ((ws.map Ward.longitude).foldl max w0.longitude) from
    h4.trans (foldl_jmax_ninf _ _)]

/-- C10: in `MapModal`, for every nonempty ward list in which at least
two wards differ in latitude and at least two differ in longitude,
`getPixelPosition` maps every ward to finite pixel coordinates with
`x ∈ [0, 800]` and `y ∈ [0, 600]`, and wards attaining the bounding-box
extremes land exactly on the map edges; when all wards share one
longitude (or one latitude) the corresponding coordinate range is zero
and the unguarded division makes that pixel coordinate non-finite
(`NaN`). -/
theorem getPixelPosition_bounds_and_degenerate (wards : List Ward) :
    ((∃ w1 ∈ wards, ∃ w2 ∈ wards, w1.latitude ≠ w2.latitude) →
     (∃ w3 ∈ wards, ∃ w4 ∈ wards, w3.longitude ≠ w4.longitude) →
     ∀ w ∈ wards, ∃ x y : ℚ,
       getPixelPosition wards w.latitude w.longitude = (.num x, .num y) ∧
       0 ≤ x ∧ x ≤ 800 ∧ 0 ≤ y ∧ y ≤ 600 ∧
       (JVal.num w.longitude = (wardBounds wards).minLon → x = 0) ∧
       (JVal.num w.longitude = (wardBounds wards).maxLon → x = 800) ∧
       (JVal.num w.latitude = (wardBounds wards).maxLat → y = 0) ∧
       (JVal.num w.latitude = (wardBounds wards).minLat → y = 600)) ∧
    (wards ≠ [] →
      ((∀ w1 ∈ wards, ∀ w2 ∈ wards, w1.longitude = w2.longitude) →
        lonRange wards = .num 0 ∧
        ∀ w ∈ wards,
          (getPixelPosition wards w.latitude w.longitude).1 = .nan) ∧
      ((∀ w1 ∈ wards, ∀ w2 ∈ wards, w1.latitude = w2.latitude) →
        latRange wards = .num 0 ∧
        ∀ w ∈ wards,
          (getPixelPosition wards w.latitude w.longitude).2 = .nan)) := by
  cases wards with
  | nil =>
      constructor
      · rintro ⟨w1, h1, _⟩
        cases h1
      · intro h
        exact absurd rfl h
  | cons w0 ws =>
      have hb := wardBounds_cons_eq w0 ws
      set mLat := (ws.map Ward.latitude).foldl min w0.latitude with hmLatDef
      set MLat := (ws.map Ward.latitude).foldl max w0.latitude with hMLatDef
      set mLon := (ws.map Ward.longitude).foldl min w0.longitude with hmLonDef
      set MLon := (ws.map Ward.longitude).foldl max w0.longitude with hMLonDef
      have hbMinLat : (wardBounds (w0 :: ws)).minLat = .num mLat := by rw [hb]
      have hbMaxLat : (wardBounds (w0 :: ws)).maxLat = .num MLat := by rw [hb]
      have hbMinLon : (wardBounds (w0 :: ws)).minLon = .num mLon := by rw [hb]
      have hbMaxLon : (wardBounds (w0 :: ws)).maxLon = .num MLon := by rw [hb]
      have hLR : lonRange (w0 :: ws) = .num (MLon - mLon) := by
        rw [lonRange, hbMaxLon, hbMinLon]
        rfl
      have hTR : latRange (w0 :: ws) = .num (MLat - mLat) := by
        rw [latRange, hbMaxLat, hbMinLat]
        rfl
      have hminLon_le : ∀ u ∈ w0 :: ws, mLon ≤ u.longitude := by
        intro u hu
        rcases List.mem_cons.mp hu with h | h
        · rw [h]
          exact foldl_min_le_init _ _
        · exact foldl_min_le_mem _ _ _ (List.mem_map_of_mem _ h)
      have hle_maxLon : ∀ u ∈ w0 :: ws, u.longitude ≤ MLon := by
        intro u hu
        rcases List.mem_cons.mp hu with h | h
        · rw [h]
          exact init_le_foldl_max _ _
        · exact mem_le_foldl_max _ _ _ (List.mem_map_of_mem _ h)
      have hminLat_le : ∀ u ∈ w0 :: ws, mLat ≤ u.latitude := by
        intro u hu
        rcases List.mem_cons.mp hu with h | h
        · rw [h]
          exact foldl_min_le_init _ _
        · exact foldl_min_le_mem _ _ _ (List.mem_map_of_mem _ h)
      have hle_maxLat : ∀ u ∈ w0 :: ws, u.latitude ≤ MLat := by
        intro u hu
        rcases List.mem_cons.mp hu with h | h
        · rw [h]
          exact init_le_foldl_max _ _
        · exact mem_le_foldl_max _ _ _ (List.mem_map_of_mem _ h)
      constructor
      · rintro ⟨w1, hw1, w2, hw2, hlat⟩ ⟨w3, hw3, w4, hw4, hlon⟩ w hw
        have hlonlt : mLon < MLon := by
          rcases lt_or_gt_of_ne hlon with h | h
          · exact lt_of_le_of_lt (hminLon_le w3 hw3)
              (lt_of_lt_of_le h (hle_maxLon w4 hw4))
          · exact lt_of_le_of_lt (hminLon_le w4 hw4)
              (lt_of_lt_of_le h (hle_maxLon w3 hw3))
        have hlatlt : mLat < MLat := by
          rcases lt_or_gt_of_ne hlat with h | h
          · exact lt_of_le_of_lt (hminLat_le w1 hw1)
              (lt_of_lt_of_le h (hle_maxLat w2 hw2))
          · exact lt_of_le_of_lt (hminLat_le w2 hw2)
              (lt_of_lt_of_le h (hle_maxLat w1 hw1))
        have hlonne : MLon - mLon ≠ 0 := ne_of_gt (sub_pos.mpr hlonlt)
        have hlatne : MLat - mLat ≠ 0 := ne_of_gt (sub_pos.mpr hlatlt)
        have hxval : (getPixelPosition (w0 :: ws) w.latitude w.longitude).1 =
            .num ((w.longitude - mLon) / (MLon - mLon) * 800) := by
          show jmul (jdiv (jsub (.num w.longitude)
            (wardBounds (w0 :: ws)).minLon) (lonRange (w0 :: ws)))
            (.num 800) = _
          rw [hbMinLon, hLR]
          have h1 : jsub (.num w.longitude) (.num mLon) =
              .num (w.longitude - mLon) := rfl
          rw [h1]
          have h2 : jdiv (.num (w.longitude - mLon)) (.num (MLon - mLon)) =
              .num ((w.longitude - mLon) / (MLon - mLon)) := by
            show (if MLon - mLon = 0 then
                if w.longitude - mLon = 0 then JVal.nan
                else if 0 < w.longitude - mLon then JVal.inf else JVal.ninf
              else JVal.num ((w.longitude - mLon) / (MLon - mLon))) = _
            rw [if_neg hlonne]
          rw [h2]
          rfl
        have hyval : (getPixelPosition (w0 :: ws) w.latitude w.longitude).2 =
            .num ((MLat - w.latitude) / (MLat - mLat) * 600) := by
          show jmul (jdiv (jsub (wardBounds (w0 :: ws)).maxLat
            (.num w.latitude)) (latRange (w0 :: ws))) (.num 600) = _
          rw [hbMaxLat, hTR]
          have h1 : jsub (.num MLat) (.num w.latitude) =
              .num (MLat - w.latitude) := rfl
          rw [h1]
          have h2 : jdiv (.num (MLat - w.latitude)) (.num (MLat - mLat)) =
              .num ((MLat - w.latitude) / (MLat - mLat)) := by
            show (if MLat - mLat = 0 then
                if MLat - w.latitude = 0 then JVal.nan
                else if 0 < MLat - w.latitude then JVal.inf else JVal.ninf
              else JVal.num ((MLat - w.latitude) / (MLat - mLat))) = _
            rw [if_neg hlatne]
          rw [h2]
          rfl
        refine ⟨(w.longitude - mLon) / (MLon - mLon) * 800,
          (MLat - w.latitude) / (MLat - mLat) * 600,
          ?_, ?_, ?_, ?_, ?_, ?_, ?_, ?_, ?_⟩
        · exact Prod.ext_iff.mpr ⟨hxval, hyval⟩
        · exact mul_nonneg (div_nonneg (sub_nonneg.mpr (hminLon_le w hw))
            (le_of_lt (sub_pos.mpr hlonlt))) (by norm_num)
        · have h1 : (w.longitude - mLon) / (MLon - mLon) ≤ 1 :=
            (div_le_one (sub_pos.mpr hlonlt)).mpr
              (sub_le_sub_right (hle_maxLon w hw) mLon)
          have h2 := mul_le_mul_of_nonneg_right h1
            (by norm_num : (0:ℚ) ≤ 800)
          linarith
        · exact mul_nonneg (div_nonneg (sub_nonneg.mpr (hle_maxLat w hw))
            (le_of_lt (sub_pos.mpr hlatlt))) (by norm_num)
        · have h1 : (MLat - w.latitude) / (MLat - mLat) ≤ 1 :=
            (div_le_one (sub_pos.mpr hlatlt)).mpr
              (sub_le_sub_left (hminLat_le w hw) MLat)
          have h2 := mul_le_mul_of_nonneg_right h1
            (by norm_num : (0:ℚ) ≤ 600)
          linarith
        · intro hEq
          rw [hbMinLon] at hEq
          have hwl : w.longitude = mLon := JVal.num.inj hEq
          rw [hwl, sub_self, zero_div, zero_mul]
        · intro hEq
          rw [hbMaxLon] at hEq
          have hwl : w.longitude = MLon := JVal.num.inj hEq
          rw [hwl, div_self hlonne, one_mul]
        · intro hEq
          rw [hbMaxLat] at hEq
          have hwl : w.latitude = MLat := JVal.num.inj hEq
          rw [hwl, sub_self, zero_div, zero_mul]
        · intro hEq
          rw [hbMinLat] at hEq
          have hwl : w.latitude = mLat := JVal.num.inj hEq
          rw [hwl, div_self hlatne, one_mul]
      · intro _
        constructor
        · intro hall
          have hAllEq : ∀ u ∈ w0 :: ws, u.longitude = w0.longitude :=
            fun u hu => hall u hu w0 (List.mem_cons_self _ _)
          have hminEq : mLon = w0.longitude := by
            apply le_antisymm (foldl_min_le_init _ _)
            apply le_foldl_min _ _ _ (le_refl _)
            intro y hy
            obtain ⟨u, hu, rfl⟩ := List.mem_map.mp hy
            exact le_of_eq (hAllEq u (List.mem_cons_of_mem _ hu)).symm
          have hmaxEq : MLon = w0.longitude := by
            apply le_antisymm
            · apply foldl_max_le _ _ _ (le_refl _)
              intro y hy
              obtain ⟨u, hu, rfl⟩ := List.mem_map.mp hy
              exact le_of_eq (hAllEq u (List.mem_cons_of_mem _ hu))
            · exact init_le_foldl_max _ _
          refine ⟨?_, ?_⟩
          · rw [hLR, hminEq, hmaxEq, sub_self]
          · intro w hw
            have hwEq : w.longitude = w0.longitude := hAllEq w hw
            show jmul (jdiv (jsub (.num w.longitude)
              (wardBounds (w0 :: ws)).minLon) (lonRange (w0 :: ws)))
              (.num 800) = .nan
            rw [hbMinLon, hLR, hminEq, hmaxEq, hwEq]
            have h1 : jsub (JVal.num w0.longitude) (JVal.num w0.longitude) =
                .num (w0.longitude - w0.longitude) := rfl
            rw [h1, sub_self]
            rfl
        · intro hall
          have hAllEq : ∀ u ∈ w0 :: ws, u.latitude = w0.latitude :=
            fun u hu => hall u hu w0 (List.mem_cons_self _ _)
          have hminEq : mLat = w0.latitude := by
            apply le_antisymm (foldl_min_le_init _ _)
            apply le_foldl_min _ _ _ (le_refl _)
            intro y hy
            obtain ⟨u, hu, rfl⟩ := List.mem_map.mp hy
            exact le_of_eq (hAllEq u (List.mem_cons_of_mem _ hu)).symm
          have hmaxEq : MLat = w0.latitude := by
            apply le_antisymm
            · apply foldl_max_le _ _ _ (le_refl _)
              intro y hy
              obtain ⟨u, hu, rfl⟩ := List.mem_map.mp hy
              exact le_of_eq (hAllEq u (List.mem_cons_of_mem _ hu))
            · exact init_le_foldl_max _ _
          refine ⟨?_, ?_⟩
          · rw [hTR, hminEq, hmaxEq, sub_self]
          · intro w hw
            have hwEq : w.latitude = w0.latitude := hAllEq w hw
            show jmul (jdiv (jsub (wardBounds (w0 :: ws)).maxLat
              (.num w.latitude)) (latRange (w0 :: ws))) (.num 600) = .nan
            rw [hbMaxLat, hTR, hminEq, hmaxEq, hwEq]
            have h1 : jsub (JVal.num w0.latitude) (JVal.num w0.latitude) =
                .num (w0.latitude - w0.latitude) := rfl
            rw [h1, sub_self]
            rfl

/-- C10 (witness): on a two-ward list with distinct latitudes and
longitudes the first ward gets finite in-range pixel coordinates; on a
two-ward list sharing one longitude the range is zero and the x
coordinate of the first ward is `NaN`. -/
theorem getPixelPosition_bounds_witness :
    (∃ x y : ℚ,
      getPixelPosition
        [⟨"A", 0, 0, 1, 0, 1, none⟩, ⟨"B", 1, 2, 1, 0, 1, none⟩]
        (Ward.latitude ⟨"A", 0, 0, 1, 0, 1, none⟩)
        (Ward.longitude ⟨"A", 0, 0, 1, 0, 1, none⟩) = (.num x, .num y) ∧
      0 ≤ x ∧ x ≤ 800 ∧ 0 ≤ y ∧ y ≤ 600) ∧
    lonRange [⟨"A", 0, 7, 1, 0, 1, none⟩, ⟨"B", 1, 7, 1, 0, 1, none⟩] =
      .num 0 ∧
    (getPixelPosition
      [⟨"A", 0, 7, 1, 0, 1, none⟩, ⟨"B", 1, 7, 1, 0, 1, none⟩]
      (Ward.latitude ⟨"A", 0, 7, 1, 0, 1, none⟩)
      (Ward.longitude ⟨"A", 0, 7, 1, 0, 1, none⟩)).1 = JVal.nan := by
  refine ⟨?_, ?_, ?_⟩
  · obtain ⟨x, y, hxy, hx0, hx8, hy0, hy6, _, _, _, _⟩ :=
      (getPixelPosition_bounds_and_degenerate
        [⟨"A", 0, 0, 1, 0, 1, none⟩, ⟨"B", 1, 2, 1, 0, 1, none⟩]).1
        ⟨⟨"A", 0, 0, 1, 0, 1, none⟩, List.mem_cons_self _ _,
         ⟨"B", 1, 2, 1, 0, 1, none⟩,
         List.mem_cons_of_mem _ (List.mem_cons_self _ _), by norm_num⟩
        ⟨⟨"A", 0, 0, 1, 0, 1, none⟩, List.mem_cons_self _ _,
         ⟨"B", 1, 2, 1, 0, 1, none⟩,
         List.mem_cons_of_mem _ (List.mem_cons_self _ _), by norm_num⟩
        ⟨"A", 0, 0, 1, 0, 1, none⟩ (List.mem_cons_self _ _)
    exact ⟨x, y, hxy, hx0, hx8, hy0, hy6⟩
  · exact (((getPixelPosition_bounds_and_degenerate
      [⟨"A", 0, 7, 1, 0, 1, none⟩, ⟨"B", 1, 7, 1, 0, 1, none⟩]).2
      (List.cons_ne_nil _ _)).1
      (by intro w1 h1 w2 h2; fin_cases h1 <;> fin_cases h2 <;> rfl)).1
  · exact (((getPixelPosition_bounds_and_degenerate
      [⟨"A", 0, 7, 1, 0, 1, none⟩, ⟨"B", 1, 7, 1, 0, 1, none⟩]).2
      (List.cons_ne_nil _ _)).1
      (by intro w1 h1 w2 h2; fin_cases h1 <;> fin_cases h2 <;> rfl)).2
      ⟨"A", 0, 7, 1, 0, 1, none⟩ (List.mem_cons_self _ _)

end FloodPredictor
